import Mathlib

/-!
Verification of the V4L2/MPP camera capture library and the GStreamer video
player of this repository, against its natural-language specification.

The definitions below are shallow embeddings of the C sources
`src/native/v4l2_mpp_camera/v4l2_mpp_camera.c` and
`src/native/v4l2_mpp_camera/gst_video_player.c`.  C `int` arithmetic is
modelled with `Int` (no overflow occurs on the byte-ranged values the code
computes with), `uint8_t` loads are modelled as functions `Nat → Nat`
returning byte values, pointers and opaque handles are modelled as `Nat`,
and the outcomes of external calls (ioctl, MPP, GStreamer) are supplied as
explicit oracle parameters so that the control flow of the C code can be
reproduced exactly.
-/

/-! ### Color conversion (v4l2_mpp_camera.c, lines 696-753 and 840-869) -/

/-- A packed BGRA pixel, each channel a C `int` value. -/
structure BGRA where
  b : Int
  g : Int
  r : Int
  a : Int
deriving DecidableEq, Repr

/-- The C expression `x >> 8` on a (possibly negative) `int`: gcc performs an
arithmetic right shift, which is floor division by 256. -/
def asr8 (x : Int) : Int := Int.fdiv x 256

/-- The C clamping idiom `r < 0 ? 0 : (r > 255 ? 255 : r)` used by all three
scalar conversion loops. -/
def clamp0_255 (x : Int) : Int := if x < 0 then 0 else if x > 255 then 255 else x

/-- Embeds `nv12_to_bgra_scalar` (v4l2_mpp_camera.c lines 696-723) at pixel
`(i, j)`: `y_row = y_plane + i * y_stride`, `uv_row = uv_plane + (i/2) * uv_stride`,
`y = y_row[j]`, `u = uv_row[(j/2)*2] - 128`, `v = uv_row[(j/2)*2+1] - 128`,
then the fixed-point formula and clamping, with `bgra_row[j*4..j*4+3] = b,g,r,255`. -/
def nv12_to_bgra_scalar (y_plane uv_plane : Nat → Nat) (y_stride uv_stride : Nat)
    (i j : Nat) : BGRA :=
  let y : Int := y_plane (i * y_stride + j)
  let u : Int := (uv_plane ((i / 2) * uv_stride + (j / 2) * 2) : Int) - 128
  let v : Int := (uv_plane ((i / 2) * uv_stride + (j / 2) * 2 + 1) : Int) - 128
  let r : Int := y + asr8 (v * 359)
  let g : Int := y - asr8 (u * 88 + v * 183)
  let b : Int := y + asr8 (u * 454)
  { b := clamp0_255 b, g := clamp0_255 g, r := clamp0_255 r, a := 255 }

/-- Embeds `nv16_to_bgra` (v4l2_mpp_camera.c lines 726-753) at pixel `(i, j)`:
identical to the 4:2:0 scalar loop except `uv_row = uv_plane + i * uv_stride`
(chroma row `i`, not `i/2`). -/
def nv16_to_bgra (y_plane uv_plane : Nat → Nat) (y_stride uv_stride : Nat)
    (i j : Nat) : BGRA :=
  let y : Int := y_plane (i * y_stride + j)
  let u : Int := (uv_plane (i * uv_stride + (j / 2) * 2) : Int) - 128
  let v : Int := (uv_plane (i * uv_stride + (j / 2) * 2 + 1) : Int) - 128
  let r : Int := y + asr8 (v * 359)
  let g : Int := y - asr8 (u * 88 + v * 183)
  let b : Int := y + asr8 (u * 454)
  { b := clamp0_255 b, g := clamp0_255 g, r := clamp0_255 r, a := 255 }

/-- The `MppFrameFormat` values the converter dispatches on
(`format & MPP_FRAME_FMT_MASK`); `other` stands for every further masked value,
which the C `default:` branch treats as NV12. -/
inductive MppFrameFormat where
  | yuv420sp
  | yuv420sp_vu
  | yuv422sp
  | yuv422sp_vu
  | other
deriving DecidableEq, Repr

/-- Embeds `yuv_to_bgra_cpu` (v4l2_mpp_camera.c lines 840-869) at pixel `(i, j)`
of the non-NEON build: `y_plane = yuv_data`, `uv_plane = yuv_data +
hor_stride * ver_stride`, and the switch dispatches NV12 and NV21 to
`nv12_to_bgra_scalar`, NV16 and NV61 to `nv16_to_bgra`, both with
`y_stride = uv_stride = hor_stride`. -/
def yuv_to_bgra_cpu (yuv_data : Nat → Nat) (hor_stride ver_stride : Nat)
    (format : MppFrameFormat) (i j : Nat) : BGRA :=
  let y_plane := yuv_data
  let uv_plane := fun k => yuv_data (hor_stride * ver_stride + k)
  match format with
  | .yuv420sp => nv12_to_bgra_scalar y_plane uv_plane hor_stride hor_stride i j
  | .yuv420sp_vu => nv12_to_bgra_scalar y_plane uv_plane hor_stride hor_stride i j
  | .yuv422sp => nv16_to_bgra y_plane uv_plane hor_stride hor_stride i j
  | .yuv422sp_vu => nv16_to_bgra y_plane uv_plane hor_stride hor_stride i j
  | .other => nv12_to_bgra_scalar y_plane uv_plane hor_stride hor_stride i j

/-- Saturation to `[0, 255]` as worded by the spec. -/
def spec_saturate (x : Int) : Int := max 0 (min 255 x)

/-- The spec formula `R = Y + (V' * 359 >> 8)` with `V' = V - 128`, saturated. -/
def spec_R (y v : Int) : Int := spec_saturate (y + asr8 ((v - 128) * 359))

/-- The spec formula `G = Y - ((U' * 88 + V' * 183) >> 8)`, saturated. -/
def spec_G (y u v : Int) : Int :=
  spec_saturate (y - asr8 ((u - 128) * 88 + (v - 128) * 183))

/-- The spec formula `B = Y + (U' * 454 >> 8)`, saturated. -/
def spec_B (y u : Int) : Int := spec_saturate (y + asr8 ((u - 128) * 454))

/-- The claim of C2, written from the spec sentence "Column index into chroma is
(j/2)*2 for Cb and +1 for Cr (or swapped for the VU variants)": for a 4:2:0
VU-variant frame the converter would read Cr from chroma column `(j/2)*2` and
Cb from `(j/2)*2 + 1`. -/
def nv21_swapped_pixel (yuv_data : Nat → Nat) (hor_stride ver_stride : Nat)
    (i j : Nat) : BGRA :=
  let uv_plane := fun k => yuv_data (hor_stride * ver_stride + k)
  let y : Int := yuv_data (i * hor_stride + j)
  let v : Int := (uv_plane ((i / 2) * hor_stride + (j / 2) * 2) : Int) - 128
  let u : Int := (uv_plane ((i / 2) * hor_stride + (j / 2) * 2 + 1) : Int) - 128
  let r : Int := y + asr8 (v * 359)
  let g : Int := y - asr8 (u * 88 + v * 183)
  let b : Int := y + asr8 (u * 454)
  { b := clamp0_255 b, g := clamp0_255 g, r := clamp0_255 r, a := 255 }

/-- A concrete 2x2 NV21 frame (hor_stride = ver_stride = 2): all luma bytes 128,
the chroma pair is (128, 255), so the two chroma byte roles are distinguishable. -/
def c2frame : Nat → Nat := fun k => if k = 5 then 255 else 128

theorem clamp0_255_eq_saturate (x : Int) : clamp0_255 x = max 0 (min 255 x) := by
  simp only [clamp0_255, Int.max_def, Int.min_def]
  split_ifs <;> omega

/-- C5: at every pixel `(i, j)` the 4:2:0 scalar conversion yields the spec's
saturated fixed-point formula with Y from luma row `i` and U, V from chroma row
`i/2` (columns `(j/2)*2` and `(j/2)*2+1`), and the 4:2:2 conversion yields the
same formula with chroma row `i`; the alpha channel is the constant 255. -/
theorem c5_scalar_formula (y_plane uv_plane : Nat → Nat) (y_stride uv_stride i j : Nat) :
    nv12_to_bgra_scalar y_plane uv_plane y_stride uv_stride i j =
      { b := spec_B (y_plane (i * y_stride + j)) (uv_plane ((i / 2) * uv_stride + (j / 2) * 2)),
        g := spec_G (y_plane (i * y_stride + j)) (uv_plane ((i / 2) * uv_stride + (j / 2) * 2))
               (uv_plane ((i / 2) * uv_stride + (j / 2) * 2 + 1)),
        r := spec_R (y_plane (i * y_stride + j)) (uv_plane ((i / 2) * uv_stride + (j / 2) * 2 + 1)),
        a := 255 }
    ∧ nv16_to_bgra y_plane uv_plane y_stride uv_stride i j =
      { b := spec_B (y_plane (i * y_stride + j)) (uv_plane (i * uv_stride + (j / 2) * 2)),
        g := spec_G (y_plane (i * y_stride + j)) (uv_plane (i * uv_stride + (j / 2) * 2))
               (uv_plane (i * uv_stride + (j / 2) * 2 + 1)),
        r := spec_R (y_plane (i * y_stride + j)) (uv_plane (i * uv_stride + (j / 2) * 2 + 1)),
        a := 255 } := by
  constructor <;>
    simp only [nv12_to_bgra_scalar, nv16_to_bgra, spec_B, spec_G, spec_R, spec_saturate,
      clamp0_255_eq_saturate]

/-- C2 counterexample: on the concrete NV21 frame `c2frame` the CPU converter
does not produce the swapped-chroma reading claimed for the VU variants: at
pixel (0, 0) the code uses the byte at column `(j/2)*2` as Cb, not Cr. -/
theorem c2_counterexample :
    yuv_to_bgra_cpu c2frame 2 2 MppFrameFormat.yuv420sp_vu 0 0 ≠
      nv21_swapped_pixel c2frame 2 2 0 0 := by decide

/-- C2 amended: the CPU converter applies the same chroma addressing to the VU
variants as to the Cb-first variants — the byte at chroma column `(j/2)*2` is
used as Cb and `(j/2)*2+1` as Cr for every variant, so NV21 converts exactly
like NV12 and NV61 exactly like NV16. -/
theorem c2_vu_no_swap (yuv_data : Nat → Nat) (hor_stride ver_stride i j : Nat) :
    yuv_to_bgra_cpu yuv_data hor_stride ver_stride MppFrameFormat.yuv420sp_vu i j =
      yuv_to_bgra_cpu yuv_data hor_stride ver_stride MppFrameFormat.yuv420sp i j
    ∧ yuv_to_bgra_cpu yuv_data hor_stride ver_stride MppFrameFormat.yuv422sp_vu i j =
      yuv_to_bgra_cpu yuv_data hor_stride ver_stride MppFrameFormat.yuv422sp i j :=
  ⟨rfl, rfl⟩

/-! ### GStreamer video player (gst_video_player.c) -/

/-- `gst_face_box_t`: five `float` fields.  The player only ever copies boxes
byte-for-byte (`memcpy`) and the claims never interpret the float values, so
each field is carried as its uninterpreted 32-bit pattern. -/
structure FaceBox where
  center_x : Nat
  center_y : Nat
  width : Nat
  height : Nat
  score : Nat
deriving DecidableEq, Repr

/-- `gst_player_error_t` (gst_video_player.h lines 43-51). -/
inductive GstPlayerError where
  | ok
  | init_failed
  | invalid_param
  | device_not_found
  | pipeline_failed
  | no_display
  | window_invalid
deriving DecidableEq, Repr

/-- The fields of `gst_player_context_t` (gst_video_player.c lines 31-67) that
the verified operations read or write.  `has_pipeline` models whether
`ctx->pipeline` is non-null; the `face_boxes` array has the compile-time size
`MAX_FACE_BOXES = 10`. -/
structure PlayerState where
  has_pipeline : Bool
  face_boxes : Fin 10 → FaceBox
  face_box_count : Int
  face_source_width : Int
  face_source_height : Int
  video_width : Int
  video_height : Int
  face_detect_width : Int
  face_detect_height : Int
  running : Bool
  playing : Bool
  frame_count : Int
  start_time : Int

/-- Embeds `gst_player_set_face_boxes` (gst_video_player.c lines 424-447) on a
non-null handle.  `boxes = none` models a null `boxes` pointer; a non-null
array is a function from C index to box.  Mirrors the body: under the mutex,
if `boxes && count > 0` then `n = count < 10 ? count : 10`, `memcpy` of the
first `n` boxes, `face_box_count = n`, and the source dimensions with their
`> 0` fallbacks; otherwise only `face_box_count = 0`.  Returns `GST_PLAYER_OK`. -/
def gst_player_set_face_boxes (st : PlayerState) (boxes : Option (Nat → FaceBox))
    (count source_width source_height : Int) : PlayerState × GstPlayerError :=
  match boxes with
  | some bs =>
    if count > 0 then
      let n : Int := if count < 10 then count else 10
      ({ st with
          face_boxes := fun k => if ((k : Nat) : Int) < n then bs (k : Nat) else st.face_boxes k,
          face_box_count := n,
          face_source_width := if source_width > 0 then source_width else st.face_detect_width,
          face_source_height := if source_height > 0 then source_height else st.face_detect_height },
        GstPlayerError.ok)
    else ({ st with face_box_count := 0 }, GstPlayerError.ok)
  | none => ({ st with face_box_count := 0 }, GstPlayerError.ok)

/-- Embeds `gst_player_clear_face_boxes` (gst_video_player.c lines 449-457) on a
non-null handle: under the mutex, `face_box_count = 0`. -/
def gst_player_clear_face_boxes (st : PlayerState) : PlayerState :=
  { st with face_box_count := 0 }

/-- Embeds the observable drawing behaviour of `on_cairo_draw`
(gst_video_player.c lines 88-134): the guard on line 97 returns early when
`face_box_count <= 0 || video_width <= 0 || face_source_width <= 0`; otherwise
the loop strokes one rectangle for each `i < face_box_count && i < MAX_FACE_BOXES`.
The result is the number of rectangles stroked. -/
def on_cairo_draw_strokes (st : PlayerState) : Nat :=
  if st.face_box_count ≤ 0 ∨ st.video_width ≤ 0 ∨ st.face_source_width ≤ 0 then 0
  else (min st.face_box_count 10).toNat

/-- Embeds `gst_player_start` (gst_video_player.c lines 352-372): null handle or
null pipeline is `INVALID_PARAM`; an already-playing context returns `OK`
untouched; otherwise the flags, start time and frame counter are set and the
pipeline is put in PLAYING (its success supplied by the `state_change_ok`
oracle, failure rolling the flags back with `PIPELINE_FAILED`). -/
def gst_player_start (st : PlayerState) (now : Int) (state_change_ok : Bool) :
    PlayerState × GstPlayerError :=
  if !st.has_pipeline then (st, GstPlayerError.invalid_param)
  else if st.playing then (st, GstPlayerError.ok)
  else
    let st1 := { st with running := true, playing := true, start_time := now, frame_count := 0 }
    if !state_change_ok then
      ({ st1 with running := false, playing := false }, GstPlayerError.pipeline_failed)
    else (st1, GstPlayerError.ok)

/-- Embeds `gst_player_stop` (gst_video_player.c lines 374-388): a non-playing
context returns `OK` untouched; otherwise the flags are cleared and the
pipeline set to NULL state. -/
def gst_player_stop (st : PlayerState) : PlayerState × GstPlayerError :=
  if !st.playing then (st, GstPlayerError.ok)
  else ({ st with running := false, playing := false }, GstPlayerError.ok)

/-- C3: a detection update on a valid handle with a non-null array and
`count ≥ 1` returns OK and stores: exactly the first 10 boxes with count 10
when `count > 10`; exactly the first `count` boxes with count `count` when
`count ≤ 10`; the configured detection dimensions whenever the caller passes a
non-positive source dimension.  Moreover no detection-store operation ever
leaves a count above the compile-time cap 10. -/
theorem c3_set_face_boxes_bounds (st : PlayerState) (bs : Nat → FaceBox)
    (count sw sh : Int) (hc : 1 ≤ count) :
    (gst_player_set_face_boxes st (some bs) count sw sh).2 = GstPlayerError.ok
    ∧ (10 < count →
        (gst_player_set_face_boxes st (some bs) count sw sh).1.face_box_count = 10
        ∧ ∀ k : Fin 10,
            (gst_player_set_face_boxes st (some bs) count sw sh).1.face_boxes k = bs (k : Nat))
    ∧ (count ≤ 10 →
        (gst_player_set_face_boxes st (some bs) count sw sh).1.face_box_count = count
        ∧ ∀ k : Fin 10, ((k : Nat) : Int) < count →
            (gst_player_set_face_boxes st (some bs) count sw sh).1.face_boxes k = bs (k : Nat))
    ∧ (sw ≤ 0 →
        (gst_player_set_face_boxes st (some bs) count sw sh).1.face_source_width
          = st.face_detect_width)
    ∧ (sh ≤ 0 →
        (gst_player_set_face_boxes st (some bs) count sw sh).1.face_source_height
          = st.face_detect_height)
    ∧ (∀ (boxes : Option (Nat → FaceBox)) (c w h : Int),
        (gst_player_set_face_boxes st boxes c w h).1.face_box_count ≤ 10)
    ∧ (gst_player_clear_face_boxes st).face_box_count ≤ 10 := by
  have hpos : count > 0 := by omega
  refine ⟨?_, ?_, ?_, ?_, ?_, ?_, ?_⟩
  · simp [gst_player_set_face_boxes, hpos]
  · intro hgt
    have hlt : ¬ count < 10 := by omega
    constructor
    · simp [gst_player_set_face_boxes, hpos, hlt]
    · intro k
      have hk : ((k : Nat) : Int) < 10 := by
        have := k.isLt
        omega
      simp [gst_player_set_face_boxes, hpos, hlt, hk]
  · intro hle
    by_cases hlt : count < 10
    · constructor
      · simp [gst_player_set_face_boxes, hpos, hlt]
      · intro k hk
        simp [gst_player_set_face_boxes, hpos, hlt, hk]
    · have hce : count = 10 := by omega
      constructor
      · simp [gst_player_set_face_boxes, hpos, hlt, hce]
      · intro k hk
        simp only [gst_player_set_face_boxes, hpos, if_true, if_pos hpos, if_neg hlt]
        simp [hk, hce]
  · intro hsw
    have : ¬ sw > 0 := by omega
    simp [gst_player_set_face_boxes, hpos, this]
  · intro hsh
    have : ¬ sh > 0 := by omega
    simp [gst_player_set_face_boxes, hpos, this]
  · intro boxes c w h
    cases boxes with
    | none => simp [gst_player_set_face_boxes]
    | some bs2 =>
      by_cases hcp : c > 0
      · by_cases hcl : c < 10 <;> (simp [gst_player_set_face_boxes, hcp, hcl]; try omega)
      · simp [gst_player_set_face_boxes, hcp]
  · simp [gst_player_clear_face_boxes]

/-- A concrete store state used to witness C3. -/
def c3wState : PlayerState :=
  { has_pipeline := true
    face_boxes := fun _ => ⟨0, 0, 0, 0, 0⟩
    face_box_count := 0
    face_source_width := 320
    face_source_height := 240
    video_width := 0
    video_height := 0
    face_detect_width := 320
    face_detect_height := 240
    running := false
    playing := false
    frame_count := 0
    start_time := 0 }

/-- A concrete 12-box update used to witness C3. -/
def c3wBoxes : Nat → FaceBox := fun k => ⟨k, k, k, k, k⟩

theorem c3_witness :
    (1 : Int) ≤ 12
    ∧ ((gst_player_set_face_boxes c3wState (some c3wBoxes) 12 0 (-1) ).2 = GstPlayerError.ok
    ∧ (10 < (12 : Int) →
        (gst_player_set_face_boxes c3wState (some c3wBoxes) 12 0 (-1)).1.face_box_count = 10
        ∧ ∀ k : Fin 10,
            (gst_player_set_face_boxes c3wState (some c3wBoxes) 12 0 (-1)).1.face_boxes k
              = c3wBoxes (k : Nat))
    ∧ ((12 : Int) ≤ 10 →
        (gst_player_set_face_boxes c3wState (some c3wBoxes) 12 0 (-1)).1.face_box_count = 12
        ∧ ∀ k : Fin 10, ((k : Nat) : Int) < 12 →
            (gst_player_set_face_boxes c3wState (some c3wBoxes) 12 0 (-1)).1.face_boxes k
              = c3wBoxes (k : Nat))
    ∧ ((0 : Int) ≤ 0 →
        (gst_player_set_face_boxes c3wState (some c3wBoxes) 12 0 (-1)).1.face_source_width
          = c3wState.face_detect_width)
    ∧ ((-1 : Int) ≤ 0 →
        (gst_player_set_face_boxes c3wState (some c3wBoxes) 12 0 (-1)).1.face_source_height
          = c3wState.face_detect_height)
    ∧ (∀ (boxes : Option (Nat → FaceBox)) (c w h : Int),
        (gst_player_set_face_boxes c3wState boxes c w h).1.face_box_count ≤ 10)
    ∧ (gst_player_clear_face_boxes c3wState).face_box_count ≤ 10) :=
  ⟨by decide, c3_set_face_boxes_bounds c3wState c3wBoxes 12 0 (-1) (by decide)⟩

/-- C10: on a valid handle, a call with a null boxes pointer or `count ≤ 0`
returns OK, leaves a state identical to that of `gst_player_clear_face_boxes`,
zeroes the stored count, and leaves the stored source dimensions and box
contents untouched. -/
theorem c10_null_or_nonpositive_clears (st : PlayerState)
    (boxes : Option (Nat → FaceBox)) (count sw sh : Int)
    (h : boxes = none ∨ count ≤ 0) :
    gst_player_set_face_boxes st boxes count sw sh
      = (gst_player_clear_face_boxes st, GstPlayerError.ok)
    ∧ (gst_player_clear_face_boxes st).face_box_count = 0
    ∧ (gst_player_clear_face_boxes st).face_source_width = st.face_source_width
    ∧ (gst_player_clear_face_boxes st).face_source_height = st.face_source_height
    ∧ (gst_player_clear_face_boxes st).face_boxes = st.face_boxes := by
  refine ⟨?_, rfl, rfl, rfl, rfl⟩
  cases boxes with
  | none => rfl
  | some bs =>
    have hc : count ≤ 0 := by
      rcases h with h | h
      · exact absurd h (by simp)
      · exact h
    have : ¬ count > 0 := by omega
    simp [gst_player_set_face_boxes, gst_player_clear_face_boxes, this]

theorem c10_witness :
    ((none : Option (Nat → FaceBox)) = none ∨ (7 : Int) ≤ 0)
    ∧ (gst_player_set_face_boxes c3wState none 7 5 5
        = (gst_player_clear_face_boxes c3wState, GstPlayerError.ok)
    ∧ (gst_player_clear_face_boxes c3wState).face_box_count = 0
    ∧ (gst_player_clear_face_boxes c3wState).face_source_width = c3wState.face_source_width
    ∧ (gst_player_clear_face_boxes c3wState).face_source_height = c3wState.face_source_height
    ∧ (gst_player_clear_face_boxes c3wState).face_boxes = c3wState.face_boxes) :=
  ⟨Or.inl rfl, c10_null_or_nonpositive_clears c3wState none 7 5 5 (Or.inl rfl)⟩

/-- A state in which the video height is still unknown (0) but the video width,
the detection count and the detector source dimensions are all known. -/
def c7State : PlayerState :=
  { has_pipeline := true
    face_boxes := fun _ => ⟨0, 0, 0, 0, 0⟩
    face_box_count := 1
    face_source_width := 320
    face_source_height := 240
    video_width := 640
    video_height := 0
    face_detect_width := 320
    face_detect_height := 240
    running := true
    playing := true
    frame_count := 0
    start_time := 0 }

/-- C7 counterexample: in `c7State` the video height is unknown (`0`), yet the
draw callback does not return early — it strokes a rectangle, refuting the
claim that an unknown height (or any unknown dimension) suppresses drawing. -/
theorem c7_counterexample :
    c7State.video_height ≤ 0 ∧ on_cairo_draw_strokes c7State ≠ 0 := by
  constructor
  · decide
  · decide

/-- C7 amended: the draw callback draws nothing whenever the detection count is
non-positive, or the video *width* is unknown, or the detector source *width*
is unknown — those are the three conditions line 97 tests; the two heights are
not part of the guard. -/
theorem c7_guard (st : PlayerState)
    (h : st.face_box_count ≤ 0 ∨ st.video_width ≤ 0 ∨ st.face_source_width ≤ 0) :
    on_cairo_draw_strokes st = 0 := by
  simp [on_cairo_draw_strokes, h]

/-- A state with no detections. -/
def c7wState : PlayerState :=
  { c7State with face_box_count := 0, video_height := 480 }

theorem c7_witness :
    (c7wState.face_box_count ≤ 0 ∨ c7wState.video_width ≤ 0 ∨ c7wState.face_source_width ≤ 0)
    ∧ on_cairo_draw_strokes c7wState = 0 :=
  ⟨Or.inl (by decide), c7_guard c7wState (Or.inl (by decide))⟩

/-! ### Camera context (v4l2_mpp_camera.c) -/

/-- `camera_error_t` (v4l2_mpp_camera.h lines 23-34). -/
inductive CameraError where
  | ok
  | device_not_found
  | device_busy
  | not_supported
  | invalid_param
  | mpp_init_failed
  | v4l2_init_failed
  | out_of_memory
  | decode_failed
  | not_running
deriving DecidableEq, Repr

/-- The fields of `camera_context_t` (v4l2_mpp_camera.c lines 68-104) that the
verified operations read or write.  `bgra_buffer` maps a double-buffer slot
(0 or 1) and a byte offset to the byte stored there; callback and user-data
pointers are opaque `Nat` values. -/
structure CameraState where
  width : Int
  height : Int
  fps : Int
  buffer_count : Int
  current_buf_idx : Nat
  pkt_buf_size : Int
  frm_buf_size : Int
  bgra_write_idx : Nat
  bgra_buffer_size : Int
  bgra_buffer : Nat → Nat → Nat
  running : Bool
  thread_started : Bool
  callback : Nat
  user_data : Nat
  frame_count : Int
  decode_count : Int

/-- The zeroed context produced by `calloc` in `camera_init` (line 142). -/
def CameraState.zeroed : CameraState :=
  { width := 0, height := 0, fps := 0, buffer_count := 0, current_buf_idx := 0,
    pkt_buf_size := 0, frm_buf_size := 0, bgra_write_idx := 0, bgra_buffer_size := 0,
    bgra_buffer := fun _ _ => 0, running := false, thread_started := false,
    callback := 0, user_data := 0, frame_count := 0, decode_count := 0 }

/-- Embeds `camera_start` (v4l2_mpp_camera.c lines 217-267) on a non-null
handle.  An already-running context returns `CAMERA_OK` before touching any
field.  Otherwise the callback, flags and counters are set, streaming is
started (`stream_ok` oracle) and the capture thread spawned (`thread_ok`
oracle covering both the SCHED_FIFO and the fallback attempt); each failure
rolls `running` back and reports `CAMERA_ERROR_V4L2_INIT_FAILED`.  On success
the spawned worker has set `thread_started` by the time the call returns. -/
def camera_start (st : CameraState) (cb ud : Nat) (stream_ok thread_ok : Bool) :
    CameraState × CameraError :=
  if st.running then (st, CameraError.ok)
  else
    let st1 := { st with
      callback := cb, user_data := ud, running := true,
      thread_started := false, frame_count := 0, decode_count := 0 }
    if !stream_ok then ({ st1 with running := false }, CameraError.v4l2_init_failed)
    else if !thread_ok then ({ st1 with running := false }, CameraError.v4l2_init_failed)
    else ({ st1 with thread_started := true }, CameraError.ok)

/-- Embeds `camera_stop` (v4l2_mpp_camera.c lines 270-291) on a non-null
handle: a non-running context returns `CAMERA_OK` untouched; otherwise the
`running` flag is cleared, the worker joined (so `thread_started` is cleared)
and streaming stopped. -/
def camera_stop (st : CameraState) : CameraState × CameraError :=
  if !st.running then (st, CameraError.ok)
  else ({ st with running := false, thread_started := false }, CameraError.ok)

/-- Embeds `camera_capture_frame` (v4l2_mpp_camera.c lines 301-321) on a
non-null handle.  `dst_nonnull` models the `bgra_data` null check.  On success
the result carries the copied bytes — the contents of double-buffer slot
`1 - bgra_write_idx` — and the output width and height.  Note the function
reads `timeout_ms` nowhere. -/
def camera_capture_frame (st : CameraState) (dst_nonnull : Bool)
    (buffer_size : Int) (_timeout_ms : Int) : CameraError × Option ((Nat → Nat) × Int × Int) :=
  if !dst_nonnull then (CameraError.invalid_param, none)
  else if !st.running then (CameraError.not_running, none)
  else if buffer_size < st.bgra_buffer_size then (CameraError.invalid_param, none)
  else
    let read_idx := 1 - st.bgra_write_idx
    (CameraError.ok, some (fun k => st.bgra_buffer read_idx k, st.width, st.height))

/-- C9: the outcome of `camera_capture_frame` — error code, copied BGRA bytes
and reported dimensions — is identical for any two timeout values from the
same context state: the function never reads `timeout_ms` and never waits, it
immediately copies the currently published slot. -/
theorem c9_timeout_irrelevant (st : CameraState) (dst_nonnull : Bool)
    (buffer_size t1 t2 : Int) :
    camera_capture_frame st dst_nonnull buffer_size t1
      = camera_capture_frame st dst_nonnull buffer_size t2 := rfl

/-- Outcomes of the external MPP calls inside one invocation of
`decode_mjpeg_to_bgra_fast`, plus the BGRA bytes the colour conversion of the
decoded frame produces. -/
structure DecodeOracle where
  packet_ok : Bool
  frame_ok : Bool
  poll_input_ok : Bool
  dequeue_input_ok : Bool
  enqueue_input_ok : Bool
  poll_output_ok : Bool
  dequeue_output_ok : Bool
  out_frame_present : Bool
  out_buf_present : Bool
  err_info : Nat
  decoded : Nat → Nat

/-- The conjunction of the checks `decode_mjpeg_to_bgra_fast` performs in
order (v4l2_mpp_camera.c lines 895-973): the packet must fit the slot's input
buffer; packet and frame setup, the non-blocking input-port poll, input-task
dequeue and enqueue, the blocking output-port poll and output-task dequeue
must each succeed; and the dequeued frame must be present with a buffer and a
zero error-info word. -/
def decode_ok (st : CameraState) (mjpeg_size : Nat) (o : DecodeOracle) : Bool :=
  decide ((mjpeg_size : Int) ≤ st.pkt_buf_size) && o.packet_ok && o.frame_ok
    && o.poll_input_ok && o.dequeue_input_ok && o.enqueue_input_ok
    && o.poll_output_ok && o.dequeue_output_ok
    && o.out_frame_present && o.out_buf_present && (o.err_info == 0)

/-- Embeds `decode_mjpeg_to_bgra_fast` (v4l2_mpp_camera.c lines 879-1037):
the round-robin slot index advances first (mod `MPP_BUFFER_COUNT = 8`);
every one of the early-return failure paths (checked in order by `decode_ok`)
leaves the context in that same state, releasing only the local packet and
frame descriptors, so they are collapsed into the single guard; on success
the conversion writes the decoded bytes into slot `bgra_write_idx`, the write
index toggles under the mutex, and `decode_count` increments.  Returns the
new state and whether a frame was produced (`got_frame`, C return value 0). -/
def decode_mjpeg_to_bgra_fast (st : CameraState) (mjpeg_size : Nat) (o : DecodeOracle) :
    CameraState × Bool :=
  let st1 := { st with current_buf_idx := (st.current_buf_idx + 1) % 8 }
  if decode_ok st1 mjpeg_size o then
    let w := st1.bgra_write_idx
    ({ st1 with
        bgra_buffer := fun s k => if s = w then o.decoded k else st1.bgra_buffer s k,
        bgra_write_idx := 1 - w,
        decode_count := st1.decode_count + 1 }, true)
  else (st1, false)

/-- The effects one capture-loop iteration has on the outside world. -/
inductive LoopAction where
  | requeue (index : Nat)
  | callback (read_idx : Nat)
deriving DecidableEq, Repr

/-- Outcome of the `select` wait at the top of the loop. -/
inductive SelectResult where
  | intr
  | fatal
  | timeout
  | ready
deriving DecidableEq, Repr

/-- Outcome of the `VIDIOC_DQBUF` ioctl. -/
inductive DqbufResult where
  | again
  | fatal
  | filled (index : Nat) (bytesused : Nat)
deriving DecidableEq, Repr

/-- Embeds one iteration of the `while (ctx->running)` body of
`capture_thread_func` (v4l2_mpp_camera.c lines 1068-1134): select errors other
than EINTR and fatal DQBUF errors break the loop; timeouts and EAGAIN continue;
on a dequeued buffer the frame counter increments, the decoder runs only when
`bytesused > 0`, the callback fires only on decode success (with the slot
`1 - bgra_write_idx` published by the decode), and the buffer is requeued on
every one of those paths, breaking the loop only if the requeue itself fails.
Returns (new state, emitted actions, whether the loop continues). -/
def capture_iteration (st : CameraState) (sel : SelectResult) (dq : DqbufResult)
    (o : DecodeOracle) (requeue_ok : Bool) : CameraState × List LoopAction × Bool :=
  match sel with
  | .intr => (st, [], true)
  | .fatal => (st, [], false)
  | .timeout => (st, [], true)
  | .ready =>
    match dq with
    | .again => (st, [], true)
    | .fatal => (st, [], false)
    | .filled index bytesused =>
      let st1 := { st with frame_count := st.frame_count + 1 }
      if bytesused > 0 then
        let d := decode_mjpeg_to_bgra_fast st1 bytesused o
        if d.2 then
          (d.1, [LoopAction.callback (1 - d.1.bgra_write_idx), LoopAction.requeue index],
            requeue_ok)
        else (d.1, [LoopAction.requeue index], requeue_ok)
      else (st1, [LoopAction.requeue index], requeue_ok)

theorem decode_frame_count_invariant (st : CameraState) (n : Nat) (o : DecodeOracle) :
    (decode_mjpeg_to_bgra_fast st n o).1.frame_count = st.frame_count := by
  simp only [decode_mjpeg_to_bgra_fast]
  split <;> rfl

theorem decode_count_increment (st : CameraState) (n : Nat) (o : DecodeOracle) :
    (decode_mjpeg_to_bgra_fast st n o).1.decode_count
      = st.decode_count + (if (decode_mjpeg_to_bgra_fast st n o).2 then 1 else 0) := by
  simp only [decode_mjpeg_to_bgra_fast]
  split <;> simp

/-- C4: in every loop iteration that successfully dequeues a buffer, the frame
counter increments exactly once; a `VIDIOC_QBUF` requeue of that buffer is
emitted whether the decode succeeded, failed, or was skipped for
`bytesused = 0`; the decode counter increments exactly when the decode ran and
succeeded; and the loop keeps running as long as the requeue succeeds — a
failed decode alone never ends it. -/
theorem c4_loop_iteration (st : CameraState) (index bytesused : Nat)
    (o : DecodeOracle) (requeue_ok : Bool) :
    (capture_iteration st .ready (.filled index bytesused) o requeue_ok).1.frame_count
      = st.frame_count + 1
    ∧ LoopAction.requeue index
        ∈ (capture_iteration st .ready (.filled index bytesused) o requeue_ok).2.1
    ∧ (capture_iteration st .ready (.filled index bytesused) o requeue_ok).1.decode_count
        = st.decode_count +
          (if bytesused > 0
              ∧ (decode_mjpeg_to_bgra_fast { st with frame_count := st.frame_count + 1 }
                  bytesused o).2 = true
           then 1 else 0)
    ∧ (capture_iteration st .ready (.filled index bytesused) o requeue_ok).2.2
        = requeue_ok := by
  by_cases hb : bytesused > 0
  · by_cases hd : (decode_mjpeg_to_bgra_fast { st with frame_count := st.frame_count + 1 }
        bytesused o).2 = true
    · refine ⟨?_, ?_, ?_, ?_⟩ <;>
        simp [capture_iteration, hb, hd, decode_frame_count_invariant, decode_count_increment]
    · refine ⟨?_, ?_, ?_, ?_⟩ <;>
        simp [capture_iteration, hb, hd, decode_frame_count_invariant, decode_count_increment]
  · refine ⟨?_, ?_, ?_, ?_⟩ <;> simp [capture_iteration, hb]

/-- C8: `camera_start` on an already-running context and `gst_player_start` on
an already-playing context (with its pipeline, as every created context has)
return OK and leave the context exactly as it was — no second worker thread,
callback, counters and flags untouched; `camera_stop` on a non-running context
and `gst_player_stop` on a non-playing context likewise return OK and change
nothing.  Hence start;start behaves as start and stop;stop as stop. -/
theorem c8_idempotent_start_stop (cst : CameraState) (cb ud : Nat)
    (stream_ok thread_ok : Bool) (pst : PlayerState) (now : Int)
    (state_change_ok : Bool) :
    (cst.running = true → camera_start cst cb ud stream_ok thread_ok = (cst, CameraError.ok))
    ∧ (cst.running = false → camera_stop cst = (cst, CameraError.ok))
    ∧ (pst.has_pipeline = true → pst.playing = true →
        gst_player_start pst now state_change_ok = (pst, GstPlayerError.ok))
    ∧ (pst.playing = false → gst_player_stop pst = (pst, GstPlayerError.ok)) := by
  refine ⟨?_, ?_, ?_, ?_⟩
  · intro h
    simp [camera_start, h]
  · intro h
    simp [camera_stop, h]
  · intro hp h
    simp [gst_player_start, hp, h]
  · intro h
    simp [gst_player_stop, h]

/-- A running camera context, used to witness C8. -/
def c8Running : CameraState :=
  { CameraState.zeroed with running := true, thread_started := true }

/-- A playing player context, used to witness C8. -/
def c8Playing : PlayerState :=
  { c3wState with playing := true, running := true }

theorem c8_witness :
    (c8Running.running = true
      ∧ camera_start c8Running 1 2 true true = (c8Running, CameraError.ok))
    ∧ (CameraState.zeroed.running = false
      ∧ camera_stop CameraState.zeroed = (CameraState.zeroed, CameraError.ok))
    ∧ (c8Playing.has_pipeline = true ∧ c8Playing.playing = true
      ∧ gst_player_start c8Playing 0 true = (c8Playing, GstPlayerError.ok))
    ∧ (c3wState.playing = false
      ∧ gst_player_stop c3wState = (c3wState, GstPlayerError.ok)) :=
  ⟨⟨rfl, (c8_idempotent_start_stop c8Running 1 2 true true c8Playing 0 true).1 rfl⟩,
   ⟨rfl, (c8_idempotent_start_stop CameraState.zeroed 1 2 true true c8Playing 0 true).2.1 rfl⟩,
   ⟨rfl, rfl, (c8_idempotent_start_stop c8Running 1 2 true true c8Playing 0 true).2.2.1 rfl rfl⟩,
   ⟨rfl, (c8_idempotent_start_stop c8Running 1 2 true true c3wState 0 true).2.2.2 rfl⟩⟩

/-! ### V4L2 and context initialization (v4l2_mpp_camera.c lines 132-182, 341-453, 510-577) -/

/-- The fourcc code `V4L2_PIX_FMT_MJPEG`, the four characters MJPG packed
little-endian. -/
def V4L2_PIX_FMT_MJPEG : Nat := 77 + 74 * 256 + 80 * 65536 + 71 * 16777216

/-- The driver-side outcomes of the ioctls `v4l2_init` issues, in program
order: device open, capability query and the two capability bits, the
`VIDIOC_S_FMT` negotiation (with the pixel format and dimensions the driver
returns in the same structure), the `VIDIOC_REQBUFS` request (with the granted
count), and the per-buffer query/mmap loop.  `VIDIOC_S_PARM` failure is
non-fatal and therefore not modelled. -/
structure V4l2Driver where
  open_ok : Bool
  querycap_ok : Bool
  cap_video_capture : Bool
  cap_streaming : Bool
  s_fmt_ok : Bool
  sfmt_pixelformat : Nat
  sfmt_width : Int
  sfmt_height : Int
  reqbufs_ok : Bool
  reqbufs_count : Int
  querybuf_mmap_ok : Bool

/-- The C macro `ALIGN(x, 16)` = `((x + 15) & ~15)`, i.e. rounding up to a
multiple of 16 (the two agree for the non-negative dimensions used). -/
def align16 (x : Int) : Int := ((x + 15) / 16) * 16

/-- Embeds `v4l2_init` (v4l2_mpp_camera.c lines 342-453): fails on open,
querycap or missing capabilities; requests MJPEG at `ctx` dimensions and fails
if the driver's returned `pixelformat` is not MJPEG; otherwise adopts the
driver-returned `width` and `height` into the context; requests 4 buffers and
fails when fewer than 2 are granted, else records the granted count; fails if
any granted buffer cannot be queried and mapped. -/
def v4l2_init (ctx : CameraState) (d : V4l2Driver) : Option CameraState :=
  if !d.open_ok then none
  else if !d.querycap_ok then none
  else if !d.cap_video_capture then none
  else if !d.cap_streaming then none
  else if !d.s_fmt_ok then none
  else if d.sfmt_pixelformat != V4L2_PIX_FMT_MJPEG then none
  else
    let ctx1 := { ctx with width := d.sfmt_width, height := d.sfmt_height }
    if !d.reqbufs_ok then none
    else if d.reqbufs_count < 2 then none
    else
      let ctx2 := { ctx1 with buffer_count := d.reqbufs_count }
      if !d.querybuf_mmap_ok then none
      else some ctx2

/-- Embeds `mpp_decoder_init` (v4l2_mpp_camera.c lines 511-577): on success the
decode slots are sized from the *context* dimensions as updated by `v4l2_init`
— `pkt_size = width * height` and `frm_size = ALIGN(width,16) * ALIGN(height,16) * 4`
— and the round-robin index starts at 0.  `mpp_ok` collects the fallible MPP
calls. -/
def mpp_decoder_init (ctx : CameraState) (mpp_ok : Bool) : Option CameraState :=
  if !mpp_ok then none
  else some { ctx with
    pkt_buf_size := ctx.width * ctx.height,
    frm_buf_size := align16 ctx.width * align16 ctx.height * 4,
    current_buf_idx := 0 }

/-- Embeds `camera_init` (v4l2_mpp_camera.c lines 133-182): parameter
validation, the zeroed context with the *requested* width/height/fps,
`v4l2_init`, `mpp_decoder_init`, and then — line 171 — the BGRA double buffers
sized as `width * height * 4` from the original *parameters*, not from the
context fields that `v4l2_init` may have replaced with the driver's
dimensions. -/
def camera_init (device_nonnull : Bool) (width height fps : Int) (d : V4l2Driver)
    (mpp_ok alloc_ok : Bool) : Option CameraState :=
  if !device_nonnull ∨ width ≤ 0 ∨ height ≤ 0 ∨ fps ≤ 0 then none
  else
    let ctx0 := { CameraState.zeroed with width := width, height := height, fps := fps }
    match v4l2_init ctx0 d with
    | none => none
    | some ctx1 =>
      match mpp_decoder_init ctx1 mpp_ok with
      | none => none
      | some ctx2 =>
        if !alloc_ok then none
        else some { ctx2 with bgra_buffer_size := width * height * 4 }

/-- A driver that accepts MJPEG but replaces the requested 320x240 geometry
with 640x480 and grants all 4 buffers. -/
def c6Driver : V4l2Driver :=
  { open_ok := true, querycap_ok := true, cap_video_capture := true,
    cap_streaming := true, s_fmt_ok := true,
    sfmt_pixelformat := V4L2_PIX_FMT_MJPEG, sfmt_width := 640, sfmt_height := 480,
    reqbufs_ok := true, reqbufs_count := 4, querybuf_mmap_ok := true }

/-- C6, at the failing input: initialization does reject a non-MJPEG driver
format and fewer than two granted buffers, and it does adopt driver-returned
dimensions as the context geometry — but those dimensions are *not* used for
all buffer sizing: requesting 320x240 from a driver that returns 640x480
succeeds with context width 640, height 480, decode buffers sized from
640x480, while the BGRA double buffers keep the requested-size
`320 * 240 * 4 = 307200` bytes, smaller than the `640 * 480 * 4` bytes the
conversion of a decoded frame writes. -/
theorem c6_bgra_sizing_bug :
    v4l2_init CameraState.zeroed { c6Driver with sfmt_pixelformat := 0 } = none
    ∧ v4l2_init CameraState.zeroed { c6Driver with reqbufs_count := 1 } = none
    ∧ Option.map (fun c => (c.width, c.height, c.pkt_buf_size, c.bgra_buffer_size))
        (camera_init true 320 240 30 c6Driver true true)
        = some (640, 480, 640 * 480, 320 * 240 * 4)
    ∧ (320 * 240 * 4 : Int) < 640 * 480 * 4 := by
  refine ⟨rfl, rfl, rfl, by decide⟩

/-! ### The publish double buffer under concurrency
(camera_capture_frame, v4l2_mpp_camera.c lines 310-315, against the writer in
decode_mjpeg_to_bgra_fast, lines 994-1017) -/

/-- A state of the double-buffer protocol: `widx` is `ctx->bgra_write_idx`,
`lock` is `ctx->frame_mutex` (0 free, 1 held by the capture worker, 2 held by
a `camera_capture_frame` caller), `wpc`/`rpc` are the program points of the
two threads, `wlocal` is the worker's local `write_idx` (line 994) and
`rsnap` the reader's local `read_idx` (line 311). -/
structure DbState where
  widx : Nat
  lock : Nat
  wpc : Nat
  wlocal : Nat
  rpc : Nat
  rsnap : Nat
deriving DecidableEq, Repr

/-- The interleaved atomic steps of the capture worker's publish cycle and of
one `camera_capture_frame` call, exactly as the C orders them.

Worker (per decoded frame): at `wpc = 0` read `write_idx = ctx->bgra_write_idx`
(line 994); at `wpc = 1` the colour conversion is writing into
`bgra_buffer[write_idx]` (lines 999-1009, *not* under the mutex); at `wpc = 2`
acquire `frame_mutex` (line 1015); at `wpc = 3` toggle
`bgra_write_idx = 1 - write_idx` (line 1016); at `wpc = 4` release the mutex
(line 1017) and start the next frame.

Reader: at `rpc = 0` compute `read_idx = 1 - ctx->bgra_write_idx` (line 311,
*before* taking the mutex); at `rpc = 1` acquire `frame_mutex` (line 313); at
`rpc = 2` the `memcpy` out of `bgra_buffer[read_idx]` is in progress
(line 314); at `rpc = 3` release the mutex (line 315). -/
inductive DbStep : DbState → DbState → Prop where
  | wSnap (s : DbState) (h : s.wpc = 0) :
      DbStep s { s with wlocal := s.widx, wpc := 1 }
  | wWriteDone (s : DbState) (h : s.wpc = 1) :
      DbStep s { s with wpc := 2 }
  | wLock (s : DbState) (h : s.wpc = 2) (hl : s.lock = 0) :
      DbStep s { s with lock := 1, wpc := 3 }
  | wToggle (s : DbState) (h : s.wpc = 3) :
      DbStep s { s with widx := 1 - s.wlocal, wpc := 4 }
  | wUnlock (s : DbState) (h : s.wpc = 4) :
      DbStep s { s with lock := 0, wpc := 0 }
  | rSnap (s : DbState) (h : s.rpc = 0) :
      DbStep s { s with rsnap := 1 - s.widx, rpc := 1 }
  | rLock (s : DbState) (h : s.rpc = 1) (hl : s.lock = 0) :
      DbStep s { s with lock := 2, rpc := 2 }
  | rCopyDone (s : DbState) (h : s.rpc = 2) :
      DbStep s { s with rpc := 3 }
  | rUnlock (s : DbState) (h : s.rpc = 3) :
      DbStep s { s with lock := 0, rpc := 4 }

/-- The initial protocol state: `bgra_write_idx = 0`, mutex free, both threads
at their first step. -/
def dbInit : DbState :=
  { widx := 0, lock := 0, wpc := 0, wlocal := 0, rpc := 0, rsnap := 0 }

/-- States the interleaved execution can reach from `dbInit`. -/
def DbReachable (s : DbState) : Prop := Relation.ReflTransGen DbStep dbInit s

/-- A torn read: the worker is inside the colour conversion writing
`bgra_buffer[wlocal]` while the reader's `memcpy` from `bgra_buffer[rsnap]`
is in progress on the same slot. -/
def dbRacy (s : DbState) : Prop := s.wpc = 1 ∧ s.rpc = 2 ∧ s.wlocal = s.rsnap

/-- C1 fails on the code: because `camera_capture_frame` computes
`read_idx = 1 - ctx->bgra_write_idx` *before* acquiring `frame_mutex`, there
is a reachable interleaving in which the reader copies from the very slot the
worker is concurrently writing — the reader snapshots `read_idx = 1` while
`bgra_write_idx = 0`, the worker publishes a frame and toggles the index to 1,
begins converting the next frame into slot 1, and only then does the reader
acquire the mutex and copy slot 1. -/
theorem c1_race_reachable : ∃ s : DbState, DbReachable s ∧ dbRacy s := by
  refine ⟨{ widx := 1, lock := 2, wpc := 1, wlocal := 1, rpc := 2, rsnap := 1 }, ?_, ?_⟩
  · have h1 : DbStep dbInit
        { widx := 0, lock := 0, wpc := 0, wlocal := 0, rpc := 1, rsnap := 1 } :=
      DbStep.rSnap dbInit rfl
    have h2 : DbStep { widx := 0, lock := 0, wpc := 0, wlocal := 0, rpc := 1, rsnap := 1 }
        { widx := 0, lock := 0, wpc := 1, wlocal := 0, rpc := 1, rsnap := 1 } :=
      DbStep.wSnap _ rfl
    have h3 : DbStep { widx := 0, lock := 0, wpc := 1, wlocal := 0, rpc := 1, rsnap := 1 }
        { widx := 0, lock := 0, wpc := 2, wlocal := 0, rpc := 1, rsnap := 1 } :=
      DbStep.wWriteDone _ rfl
    have h4 : DbStep { widx := 0, lock := 0, wpc := 2, wlocal := 0, rpc := 1, rsnap := 1 }
        { widx := 0, lock := 1, wpc := 3, wlocal := 0, rpc := 1, rsnap := 1 } :=
      DbStep.wLock _ rfl rfl
    have h5 : DbStep { widx := 0, lock := 1, wpc := 3, wlocal := 0, rpc := 1, rsnap := 1 }
        { widx := 1, lock := 1, wpc := 4, wlocal := 0, rpc := 1, rsnap := 1 } :=
      DbStep.wToggle _ rfl
    have h6 : DbStep { widx := 1, lock := 1, wpc := 4, wlocal := 0, rpc := 1, rsnap := 1 }
        { widx := 1, lock := 0, wpc := 0, wlocal := 0, rpc := 1, rsnap := 1 } :=
      DbStep.wUnlock _ rfl
    have h7 : DbStep { widx := 1, lock := 0, wpc := 0, wlocal := 0, rpc := 1, rsnap := 1 }
        { widx := 1, lock := 0, wpc := 1, wlocal := 1, rpc := 1, rsnap := 1 } :=
      DbStep.wSnap _ rfl
    have h8 : DbStep { widx := 1, lock := 0, wpc := 1, wlocal := 1, rpc := 1, rsnap := 1 }
        { widx := 1, lock := 2, wpc := 1, wlocal := 1, rpc := 2, rsnap := 1 } :=
      DbStep.rLock _ rfl rfl
    exact .head h1 (.head h2 (.head h3 (.head h4 (.head h5 (.head h6
      (.head h7 (.head h8 .refl)))))))
  · exact ⟨rfl, rfl, rfl⟩

/-- The reader the spec describes: the snapshot of the publish slot is taken
*after* acquiring the mutex.  Only the three reader steps differ from
`DbStep`: lock at `rpc = 0`, snapshot at `rpc = 1` (under the lock), copy at
`rpc = 2`, unlock at `rpc = 3`. -/
inductive DbStepLocked : DbState → DbState → Prop where
  | wSnap (s : DbState) (h : s.wpc = 0) :
      DbStepLocked s { s with wlocal := s.widx, wpc := 1 }
  | wWriteDone (s : DbState) (h : s.wpc = 1) :
      DbStepLocked s { s with wpc := 2 }
  | wLock (s : DbState) (h : s.wpc = 2) (hl : s.lock = 0) :
      DbStepLocked s { s with lock := 1, wpc := 3 }
  | wToggle (s : DbState) (h : s.wpc = 3) :
      DbStepLocked s { s with widx := 1 - s.wlocal, wpc := 4 }
  | wUnlock (s : DbState) (h : s.wpc = 4) :
      DbStepLocked s { s with lock := 0, wpc := 0 }
  | rLock (s : DbState) (h : s.rpc = 0) (hl : s.lock = 0) :
      DbStepLocked s { s with lock := 2, rpc := 1 }
  | rSnap (s : DbState) (h : s.rpc = 1) :
      DbStepLocked s { s with rsnap := 1 - s.widx, rpc := 2 }
  | rCopyDone (s : DbState) (h : s.rpc = 2) :
      DbStepLocked s { s with rpc := 3 }
  | rUnlock (s : DbState) (h : s.rpc = 3) :
      DbStepLocked s { s with lock := 0, rpc := 4 }

/-- Inductive invariant of the locked-snapshot protocol. -/
def dbInv (s : DbState) : Prop :=
  s.widx ≤ 1
  ∧ (s.wpc = 1 ∨ s.wpc = 2 ∨ s.wpc = 3 → s.wlocal = s.widx)
  ∧ (s.lock = 1 ↔ s.wpc = 3 ∨ s.wpc = 4)
  ∧ (s.lock = 2 ↔ s.rpc = 1 ∨ s.rpc = 2 ∨ s.rpc = 3)
  ∧ (s.rpc = 2 → s.rsnap = 1 - s.widx)
  ∧ s.wpc ≤ 4 ∧ s.rpc ≤ 4

theorem dbInv_init : dbInv dbInit := by
  refine ⟨?_, ?_, ?_, ?_, ?_, ?_, ?_⟩ <;> simp [dbInit, dbInv]

theorem dbInv_preserved (s t : DbState) (hs : dbInv s) (hst : DbStepLocked s t) :
    dbInv t := by
  obtain ⟨hw, hloc, hl1, hl2, hsnap, hwpc, hrpc⟩ := hs
  cases hst with
  | wSnap h => refine ⟨hw, ?_, ?_, ?_, ?_, ?_, ?_⟩ <;> dsimp <;> omega
  | wWriteDone h => refine ⟨hw, ?_, ?_, ?_, ?_, ?_, ?_⟩ <;> dsimp <;> omega
  | wLock h hl => refine ⟨hw, ?_, ?_, ?_, ?_, ?_, ?_⟩ <;> dsimp <;> omega
  | wToggle h => refine ⟨?_, ?_, ?_, ?_, ?_, ?_, ?_⟩ <;> dsimp <;> omega
  | wUnlock h => refine ⟨hw, ?_, ?_, ?_, ?_, ?_, ?_⟩ <;> dsimp <;> omega
  | rLock h hl => refine ⟨hw, ?_, ?_, ?_, ?_, ?_, ?_⟩ <;> dsimp <;> omega
  | rSnap h => refine ⟨hw, ?_, ?_, ?_, ?_, ?_, ?_⟩ <;> dsimp <;> omega
  | rCopyDone h => refine ⟨hw, ?_, ?_, ?_, ?_, ?_, ?_⟩ <;> dsimp <;> omega
  | rUnlock h => refine ⟨hw, ?_, ?_, ?_, ?_, ?_, ?_⟩ <;> dsimp <;> omega

/-- Under the protocol the spec states — snapshot taken under the mutex — no
interleaving reaches a state in which the reader copies the slot the worker is
writing: the claimed invariant does hold of the intended protocol, which is
why C1 is a bug of the code rather than of the claim. -/
theorem dbLocked_race_free (s : DbState)
    (h : Relation.ReflTransGen DbStepLocked dbInit s) : ¬ dbRacy s := by
  have hinv : dbInv s := by
    induction h with
    | refl => exact dbInv_init
    | tail hab hbc ih => exact dbInv_preserved _ _ ih hbc
  obtain ⟨hw, hloc, hl1, hl2, hsnap, hwpc, hrpc⟩ := hinv
  rintro ⟨h1, h2, h3⟩
  have := hloc (Or.inl h1)
  have := hsnap h2
  omega
